import Mathlib

/-
Verification of the telework commute pipeline (Telework.py) against its
natural-language specification.

Shallow embedding notes:
* A geocode location dict is embedded as `Location`; a field whose key may be
  absent from the dict (raising `KeyError` in Python) is an `Option`, with
  `none` standing for the missing key.  Exceptions raised while processing one
  location are embedded as `Option`/`Except` failure values.
* Python float scores, distances and coordinates are embedded as `Int`: none
  of the verified code performs arithmetic on them, it only compares scores
  with 0 and moves the values around.
* The polling loop of `calculate_commute` is driven by a finite trace of
  status responses (one list element per HTTP status query); the network
  collaborators `generate_token` and the route fetch are parameters.  A
  `PollLog` records, per status query, the job id and token used, and, per
  token re-acquisition, the credentials used.
-/

namespace Telework

/-- Address-type constant `WORK` from the script. -/
def WORK_ADDRESS_TYPE : String := "WORK"

/-- Address-type constant `HOME` from the script. -/
def HOME_ADDRESS_TYPE : String := "HOME"

/-- One geocode location as consumed by `match_work_and_home`:
`attributes.ResultID`, `attributes.Employee_Address_Type`, `address`, `score`.
`none` models a missing key (a `KeyError` on access in Python). -/
structure Location where
  resultID : Option Int
  addressType : Option String
  address : Option String
  score : Option Int
deriving Repr, DecidableEq

/-- The mutable state of the `match_work_and_home` loop: the four lists
`found_employees`, `origins`, `destinations`, `flagged_employees`. -/
structure MatchState where
  found : List Int
  origins : List Location
  destinations : List Location
  flagged : List Int
deriving Repr, DecidableEq

/-- The `next(...)` generator search for `matching_location`: the first
location in the pool with the same `ResultID`, a different `address` and a
different address type.  Field accesses happen in Python's short-circuit
order; a missing key raises, embedded as `Except.error`. -/
def findMatchingLocation (employee : Int) (address employeeAddressType : String) :
    List Location → Except Unit (Option Location)
  | [] => Except.ok none
  | l :: ls =>
    match l.resultID with
    | none => Except.error ()
    | some rid =>
      if rid = employee then
        match l.address with
        | none => Except.error ()
        | some a =>
          if a = address then findMatchingLocation employee address employeeAddressType ls
          else
            match l.addressType with
            | none => Except.error ()
            | some t =>
              if t = employeeAddressType then
                findMatchingLocation employee address employeeAddressType ls
              else Except.ok (some l)
      else findMatchingLocation employee address employeeAddressType ls

/-- The body of the `try` block of `match_work_and_home` for one location,
after `ResultID` was read and the found/flagged skip check passed.  `none`
embeds an exception escaping to the `except` handler. -/
def tryProcess (locations : List Location) (s : MatchState) (employee : Int)
    (location : Location) : Option MatchState :=
  match location.addressType with
  | none => none
  | some employeeAddressType =>
    match location.address with
    | none => none
    | some address =>
      match findMatchingLocation employee address employeeAddressType locations with
      | Except.error _ => none
      | Except.ok none =>
        some { s with
          flagged := if employee ∈ s.flagged then s.flagged else s.flagged ++ [employee] }
      | Except.ok (some matchingLocation) =>
        match location.score with
        | none => none
        | some locationScore =>
          if locationScore = 0 then
            some { s with
              found := s.found ++ [employee],
              flagged := if employee ∈ s.flagged then s.flagged else s.flagged ++ [employee] }
          else
            match matchingLocation.score with
            | none => none
            | some matchingScore =>
              if matchingScore = 0 then
                some { s with
                  found := s.found ++ [employee],
                  flagged := if employee ∈ s.flagged then s.flagged else s.flagged ++ [employee] }
              else
                some { s with
                  found := s.found ++ [employee],
                  origins := s.origins ++ [location],
                  destinations := s.destinations ++ [matchingLocation] }

/-- One iteration of the `for location in locations` loop of
`match_work_and_home`, including the `except` handler: on an exception the
employee is flagged only when the identifier was read and is truthy in
Python (an `Int` is truthy iff nonzero). -/
def processLocation (locations : List Location) (s : MatchState) (location : Location) :
    MatchState :=
  match location.resultID with
  | none => s
  | some employee =>
    if employee ∈ s.found ∨ employee ∈ s.flagged then s
    else
      match tryProcess locations s employee location with
      | some s2 => s2
      | none =>
        if employee = 0 then s
        else { s with
          flagged := if employee ∈ s.flagged then s.flagged else s.flagged ++ [employee] }

/-- The full loop state of `match_work_and_home` over an input pool. -/
def matchState (locations : List Location) : MatchState :=
  locations.foldl (processLocation locations)
    { found := [], origins := [], destinations := [], flagged := [] }

/-- `match_work_and_home(locations)`: returns
`(origins, destinations, flagged_employees)`. -/
def match_work_and_home (locations : List Location) :
    List Location × List Location × List Int :=
  ((matchState locations).origins, (matchState locations).destinations,
    (matchState locations).flagged)

/-- A geocoder location attribute record as seen by the disambiguation step
of `geocode_addresses` (lines 106-118): its `ResultID` and the
`Employee_Address_Type` written by that step. -/
structure GeoLoc where
  resultID : Int
  addressType : Option String
deriving Repr, DecidableEq

/-- The `location_count == 2` branch of `geocode_addresses`: tag the pair
WORK/HOME by comparing the two `ResultID`s and overwrite the HOME result's
`ResultID` with its partner's id. -/
def geocode_assign_types (firstLocation secondLocation : GeoLoc) : GeoLoc × GeoLoc :=
  let firstLocationId := firstLocation.resultID
  let secondLocationId := secondLocation.resultID
  if firstLocationId > secondLocationId then
    ({ firstLocation with addressType := some HOME_ADDRESS_TYPE, resultID := secondLocationId },
     { secondLocation with addressType := some WORK_ADDRESS_TYPE })
  else
    ({ firstLocation with addressType := some WORK_ADDRESS_TYPE },
     { secondLocation with addressType := some HOME_ADDRESS_TYPE, resultID := firstLocationId })

/-- A route feature's attributes as consumed by `write_output`:
`RouteName`, `Total_Miles`, `Total_Minutes`, `From_Employee_Address_Type`,
and the four endpoint coordinates. -/
structure RouteFeature where
  routeName : Int
  totalMiles : Int
  totalMinutes : Int
  fromAddressType : String
  fromLat : Int
  fromLon : Int
  toLat : Int
  toLon : Int
deriving Repr, DecidableEq

/-- One output row of `write_output` in the fixed 8-column schema. -/
structure OutputRow where
  employeeNumber : Int
  commuteMiles : Int
  commuteMinutes : Int
  workLat : Int
  workLon : Int
  homeLat : Int
  homeLon : Int
  flagged : Bool
deriving Repr, DecidableEq

/-- The row-building part of `write_output`: one row appended per route
feature (resolving WORK/HOME polarity from the `From_` address-type tag),
then one zero-filled flagged row per flagged employee.  The CSV write at the
end of the Python function is I/O glue and is not part of the rows value. -/
def write_output (features : List RouteFeature) (flagged_employees : List Int) :
    List OutputRow :=
  let rows := features.foldl
    (fun rows feature =>
      let coords :=
        if feature.fromAddressType = WORK_ADDRESS_TYPE then
          (feature.fromLat, feature.fromLon, feature.toLat, feature.toLon)
        else
          (feature.toLat, feature.toLon, feature.fromLat, feature.fromLon)
      rows ++ [{ employeeNumber := feature.routeName,
                 commuteMiles := feature.totalMiles,
                 commuteMinutes := feature.totalMinutes,
                 workLat := coords.1, workLon := coords.2.1,
                 homeLat := coords.2.2.1, homeLon := coords.2.2.2,
                 flagged := false }]) []
  flagged_employees.foldl
    (fun rows emp =>
      rows ++ [{ employeeNumber := emp, commuteMiles := 0, commuteMinutes := 0,
                 workLat := 0, workLon := 0, homeLat := 0, homeLon := 0,
                 flagged := true }]) rows

/-- One row of the worker-info CSV as read by `read_worker_info`. -/
structure Worker where
  employee : Int
  workAddress : String
  workCity : String
  workState : String
  workZip : String
  homeAddress : String
  homeCity : String
  homeState : String
  homeZip : String
deriving Repr, DecidableEq

/-- One geocode request record built by `read_worker_info`
(the `attributes` dict with `OBJECTID`, `Address`, `City`, `Region`, `Postal`). -/
structure GeocodeRecord where
  objectID : Int
  address : String
  city : String
  region : String
  postal : String
deriving Repr, DecidableEq

/-- The two records built for one worker: `OBJECTID = employee` for work and
`OBJECTID = employee + 1` for home. -/
def workerRecords (w : Worker) : List GeocodeRecord :=
  [{ objectID := w.employee, address := w.workAddress, city := w.workCity,
     region := w.workState, postal := w.workZip },
   { objectID := w.employee + 1, address := w.homeAddress, city := w.homeCity,
     region := w.homeState, postal := w.homeZip }]

/-- `read_worker_info`: per worker row, append its two-record batch. -/
def read_worker_info (workers : List Worker) : List (List GeocodeRecord) :=
  workers.foldl (fun recordsList w => recordsList ++ [workerRecords w]) []

/-- All synthetic record ids produced for a roster. -/
def allObjectIDs (workers : List Worker) : List Int :=
  (read_worker_info workers).flatMap (fun records => records.map GeocodeRecord.objectID)

/-- One HTTP response to the job-status query inside `calculate_commute`:
either it carries a `jobStatus` key, or an `error` object (with an optional
`code`), or neither key. -/
inductive PollResponse where
  | status (jobStatus : String)
  | error (code : Option Int)
  | other
deriving Repr, DecidableEq

/-- Effect log of the polling loop: the `(job id, token)` used by each status
query, and the credentials passed to each `generate_token` call. -/
structure PollLog where
  polls : List (String × Option String)
  tokenRequests : List (String × String)
deriving Repr, DecidableEq

/-- Outcome of `calculate_commute`'s polling loop.  `failure` is a
`logger.critical` followed by `return`; `loopExit` is the implicit `None`
when the while-condition goes false on a status that is neither handled as
succeeded nor failed; `exhausted` means the response trace ended while the
loop would have polled again. -/
inductive PollOutcome where
  | routes (features : List Int)
  | failure
  | loopExit
  | exhausted
deriving Repr, DecidableEq

/-- The `while job_status == "esriJobSubmitted" or job_status == "esriJobExecuting"`
polling loop of `calculate_commute`, driven by a trace of status responses.
`gen` embeds `generate_token` (returning `none` on failure, as the Python
function returns `None`); `fetch` embeds the route-result fetch, as a
function of the token the fetch URL carries. -/
def pollLoop (gen : String → String → Option String) (fetch : Option String → List Int)
    (username password jobId : String) :
    List PollResponse → Option String → String → PollLog → PollOutcome × PollLog
  | [], _, jobStatus, log =>
    if jobStatus = "esriJobSubmitted" ∨ jobStatus = "esriJobExecuting" then
      (PollOutcome.exhausted, log)
    else (PollOutcome.loopExit, log)
  | response :: rest, token, jobStatus, log =>
    if jobStatus = "esriJobSubmitted" ∨ jobStatus = "esriJobExecuting" then
      let log1 : PollLog := { log with polls := log.polls ++ [(jobId, token)] }
      match response with
      | PollResponse.status s =>
        if s = "esriJobSucceeded" then (PollOutcome.routes (fetch token), log1)
        else if s = "esriJobFailed" then (PollOutcome.failure, log1)
        else pollLoop gen fetch username password jobId rest token s log1
      | PollResponse.error code =>
        if code = some 498 then
          pollLoop gen fetch username password jobId rest (gen username password) jobStatus
            { log1 with tokenRequests := log1.tokenRequests ++ [(username, password)] }
        else (PollOutcome.failure, log1)
      | PollResponse.other =>
        pollLoop gen fetch username password jobId rest token jobStatus log1
    else (PollOutcome.loopExit, log)

/-- `calculate_commute` from job submission onwards: a submission response
with no `jobId` is a terminal failure; otherwise the polling loop runs from
`esriJobSubmitted` with the initial token. -/
def calculate_commute (gen : String → String → Option String)
    (fetch : Option String → List Int) (username password : String)
    (submitResult : Option String) (responses : List PollResponse)
    (token : Option String) : PollOutcome × PollLog :=
  match submitResult with
  | some jobId =>
    pollLoop gen fetch username password jobId responses token "esriJobSubmitted"
      { polls := [], tokenRequests := [] }
  | none => (PollOutcome.failure, { polls := [], tokenRequests := [] })

/-- A well-formed WORK geocode result for employee 1 (concrete test datum). -/
def locWork : Location :=
  { resultID := some 1, addressType := some WORK_ADDRESS_TYPE,
    address := some "addrA", score := some 5 }

/-- A well-formed HOME geocode result for employee 1 (concrete test datum). -/
def locHome : Location :=
  { resultID := some 1, addressType := some HOME_ADDRESS_TYPE,
    address := some "addrB", score := some 7 }

/-- A WORK result for employee 1 whose match score is 0 (concrete test datum). -/
def locZeroScore : Location :=
  { resultID := some 1, addressType := some WORK_ADDRESS_TYPE,
    address := some "addrA", score := some 0 }

/-- A malformed result whose identifier is 0 (falsy in Python) and whose
address-type key is missing (concrete test datum). -/
def locMalformedZero : Location :=
  { resultID := some 0, addressType := none, address := some "x", score := some 5 }

/-- A malformed result with readable nonzero identifier 2 and a missing
address-type key (concrete test datum). -/
def locMalformedTwo : Location :=
  { resultID := some 2, addressType := none, address := some "y", score := some 3 }

/-- The empty loop state of `match_work_and_home`. -/
def emptyMatchState : MatchState :=
  { found := [], origins := [], destinations := [], flagged := [] }

/-- A worker row with employee number 5 (concrete test datum). -/
def worker5 : Worker :=
  { employee := 5, workAddress := "w5", workCity := "wc", workState := "ws",
    workZip := "wz", homeAddress := "h5", homeCity := "hc", homeState := "hs",
    homeZip := "hz" }

/-- A worker row with employee number 6 (concrete test datum). -/
def worker6 : Worker :=
  { employee := 6, workAddress := "w6", workCity := "wc", workState := "ws",
    workZip := "wz", homeAddress := "h6", homeCity := "hc", homeState := "hs",
    homeZip := "hz" }

/-- A worker row with employee number 8 (concrete test datum). -/
def worker8 : Worker :=
  { employee := 8, workAddress := "w8", workCity := "wc", workState := "ws",
    workZip := "wz", homeAddress := "h8", homeCity := "hc", homeState := "hs",
    homeZip := "hz" }

/-- Specification predicate for a pair appended by one successful match step
of `match_work_and_home`: a shared result id, distinct addresses, opposite
address types, and two present, nonzero match scores. -/
def GoodPair (o d : Location) : Prop :=
  (∃ e, o.resultID = some e ∧ d.resultID = some e) ∧
  (∃ a b, o.address = some a ∧ d.address = some b ∧ a ≠ b) ∧
  (∃ t u, o.addressType = some t ∧ d.addressType = some u ∧ t ≠ u) ∧
  (∃ x, o.score = some x ∧ x ≠ 0) ∧
  (∃ y, d.score = some y ∧ y ≠ 0)

/-- Loop invariant of `match_work_and_home`: origins and destinations are
index-aligned good pairs, every matched id is in found and absent from
flagged, and matched ids are pairwise distinct. -/
structure MatchInv (s : MatchState) : Prop where
  len_eq : s.origins.length = s.destinations.length
  ids_eq : s.origins.map Location.resultID = s.destinations.map Location.resultID
  pairs_good : ∀ p ∈ s.origins.zip s.destinations, GoodPair p.1 p.2
  origins_found : ∀ o ∈ s.origins, ∀ e, o.resultID = some e → e ∈ s.found
  origins_not_flagged : ∀ o ∈ s.origins, ∀ e, o.resultID = some e → e ∉ s.flagged
  ids_nodup : (s.origins.map Location.resultID).Nodup

/-- Folding list-appends of singletons is mapping: shared helper for the
row/record building loops. -/
theorem foldl_append_singleton {α β : Type} (g : α → β) :
    ∀ (l : List α) (init : List β),
      l.foldl (fun acc x => acc ++ [g x]) init = init ++ l.map g := by
  intro l
  induction l with
  | nil => intro init; simp
  | cons x xs ih => intro init; simp [List.foldl_cons, ih]

/-- Claim C3: the two-candidate disambiguation branch of `geocode_addresses`
tags exactly one result WORK and one HOME (never both the same), the WORK
result holds the smaller of the two original result ids, and the HOME
result's stored id is overwritten to that same smaller id. -/
theorem c3_disambiguation_tags_and_ids (l1 l2 : GeoLoc) :
    (((geocode_assign_types l1 l2).1.addressType = some WORK_ADDRESS_TYPE ∧
        (geocode_assign_types l1 l2).2.addressType = some HOME_ADDRESS_TYPE) ∨
      ((geocode_assign_types l1 l2).1.addressType = some HOME_ADDRESS_TYPE ∧
        (geocode_assign_types l1 l2).2.addressType = some WORK_ADDRESS_TYPE)) ∧
    (geocode_assign_types l1 l2).1.addressType ≠ (geocode_assign_types l1 l2).2.addressType ∧
    (geocode_assign_types l1 l2).1.resultID = min l1.resultID l2.resultID ∧
    (geocode_assign_types l1 l2).2.resultID = min l1.resultID l2.resultID := by
  have hne : (some HOME_ADDRESS_TYPE : Option String) ≠ some WORK_ADDRESS_TYPE := by decide
  by_cases h : l1.resultID > l2.resultID
  · have e1 : geocode_assign_types l1 l2 =
      ({ l1 with addressType := some HOME_ADDRESS_TYPE, resultID := l2.resultID },
       { l2 with addressType := some WORK_ADDRESS_TYPE }) := by
      simp [geocode_assign_types, h]
    have hmin : min l1.resultID l2.resultID = l2.resultID := min_eq_right (le_of_lt h)
    rw [e1]
    exact ⟨Or.inr ⟨rfl, rfl⟩, hne, hmin.symm, hmin.symm⟩
  · have e2 : geocode_assign_types l1 l2 =
      ({ l1 with addressType := some WORK_ADDRESS_TYPE },
       { l2 with addressType := some HOME_ADDRESS_TYPE, resultID := l1.resultID }) := by
      simp [geocode_assign_types, h]
    have hmin : min l1.resultID l2.resultID = l1.resultID := min_eq_left (le_of_not_lt h)
    rw [e2]
    exact ⟨Or.inl ⟨rfl, rfl⟩, hne.symm, hmin.symm, hmin.symm⟩

/-- Claim C6: `write_output` emits exactly one row per route feature followed
by one row per flagged employee, in that order; each matched row resolves
WORK versus HOME coordinates from the route's `From_` address-type tag; each
flagged row is zero-filled with the flagged marker set; no employee's row is
dropped (the output's employee column is exactly the feature route names
followed by the flagged ids). -/
theorem c6_write_output_rows (features : List RouteFeature) (flagged_employees : List Int) :
    write_output features flagged_employees =
      features.map (fun feature =>
        { employeeNumber := feature.routeName,
          commuteMiles := feature.totalMiles,
          commuteMinutes := feature.totalMinutes,
          workLat := if feature.fromAddressType = WORK_ADDRESS_TYPE then
            feature.fromLat else feature.toLat,
          workLon := if feature.fromAddressType = WORK_ADDRESS_TYPE then
            feature.fromLon else feature.toLon,
          homeLat := if feature.fromAddressType = WORK_ADDRESS_TYPE then
            feature.toLat else feature.fromLat,
          homeLon := if feature.fromAddressType = WORK_ADDRESS_TYPE then
            feature.toLon else feature.fromLon,
          flagged := false }) ++
      flagged_employees.map (fun emp =>
        { employeeNumber := emp, commuteMiles := 0, commuteMinutes := 0,
          workLat := 0, workLon := 0, homeLat := 0, homeLon := 0,
          flagged := true }) ∧
    (write_output features flagged_employees).map OutputRow.employeeNumber =
      features.map RouteFeature.routeName ++ flagged_employees := by
  have h : write_output features flagged_employees =
      features.map (fun feature =>
        { employeeNumber := feature.routeName,
          commuteMiles := feature.totalMiles,
          commuteMinutes := feature.totalMinutes,
          workLat := if feature.fromAddressType = WORK_ADDRESS_TYPE then
            feature.fromLat else feature.toLat,
          workLon := if feature.fromAddressType = WORK_ADDRESS_TYPE then
            feature.fromLon else feature.toLon,
          homeLat := if feature.fromAddressType = WORK_ADDRESS_TYPE then
            feature.toLat else feature.fromLat,
          homeLon := if feature.fromAddressType = WORK_ADDRESS_TYPE then
            feature.toLon else feature.fromLon,
          flagged := false }) ++
      flagged_employees.map (fun emp =>
        { employeeNumber := emp, commuteMiles := 0, commuteMinutes := 0,
          workLat := 0, workLon := 0, homeLat := 0, homeLon := 0,
          flagged := true }) := by
    unfold write_output
    rw [foldl_append_singleton, foldl_append_singleton]
    simp only [List.nil_append]
    have hmap : List.map (fun feature =>
        let coords :=
          if feature.fromAddressType = WORK_ADDRESS_TYPE then
            (feature.fromLat, feature.fromLon, feature.toLat, feature.toLon)
          else
            (feature.toLat, feature.toLon, feature.fromLat, feature.fromLon)
        ({ employeeNumber := feature.routeName,
           commuteMiles := feature.totalMiles,
           commuteMinutes := feature.totalMinutes,
           workLat := coords.1, workLon := coords.2.1,
           homeLat := coords.2.2.1, homeLon := coords.2.2.2,
           flagged := false } : OutputRow)) features =
      List.map (fun feature =>
        ({ employeeNumber := feature.routeName,
           commuteMiles := feature.totalMiles,
           commuteMinutes := feature.totalMinutes,
           workLat := if feature.fromAddressType = WORK_ADDRESS_TYPE then
             feature.fromLat else feature.toLat,
           workLon := if feature.fromAddressType = WORK_ADDRESS_TYPE then
             feature.fromLon else feature.toLon,
           homeLat := if feature.fromAddressType = WORK_ADDRESS_TYPE then
             feature.toLat else feature.fromLat,
           homeLon := if feature.fromAddressType = WORK_ADDRESS_TYPE then
             feature.toLon else feature.fromLon,
           flagged := false } : OutputRow)) features := by
      refine List.map_congr_left fun feature _ => ?_
      by_cases hT : feature.fromAddressType = WORK_ADDRESS_TYPE <;> simp [hT]
    rw [hmap]
  refine ⟨h, ?_⟩
  rw [h]
  simp only [List.map_append, List.map_map]
  have h1 : ∀ fs : List RouteFeature,
      List.map (OutputRow.employeeNumber ∘ fun feature =>
        ({ employeeNumber := feature.routeName,
           commuteMiles := feature.totalMiles,
           commuteMinutes := feature.totalMinutes,
           workLat := if feature.fromAddressType = WORK_ADDRESS_TYPE then
             feature.fromLat else feature.toLat,
           workLon := if feature.fromAddressType = WORK_ADDRESS_TYPE then
             feature.fromLon else feature.toLon,
           homeLat := if feature.fromAddressType = WORK_ADDRESS_TYPE then
             feature.toLat else feature.fromLat,
           homeLon := if feature.fromAddressType = WORK_ADDRESS_TYPE then
             feature.toLon else feature.fromLon,
           flagged := false } : OutputRow)) fs = List.map RouteFeature.routeName fs :=
    fun fs => List.map_congr_left fun a _ => rfl
  have h2 : ∀ fl : List Int,
      List.map (OutputRow.employeeNumber ∘ fun emp =>
        ({ employeeNumber := emp, commuteMiles := 0, commuteMinutes := 0,
           workLat := 0, workLon := 0, homeLat := 0, homeLon := 0,
           flagged := true } : OutputRow)) fl = fl := by
    intro fl
    have := List.map_congr_left (l := fl)
      (f := OutputRow.employeeNumber ∘ fun emp =>
        ({ employeeNumber := emp, commuteMiles := 0, commuteMinutes := 0,
           workLat := 0, workLon := 0, homeLat := 0, homeLon := 0,
           flagged := true } : OutputRow)) (g := id) (fun a _ => rfl)
    simpa using this
  rw [h1, h2]

/-- Claim C2: on the polling trace executing, executing, auth-expiry error
(code 498), succeeded, `calculate_commute` re-acquires a token exactly once
with the original credentials, keeps polling the same job (using the
refreshed token after the expiry), returns the fetched route features, and
reports no failure. -/
theorem c2_poll_auth_refresh (gen : String → String → Option String)
    (fetch : Option String → List Int) (u p jid t1 t2 : String)
    (hgen : gen u p = some t2) :
    calculate_commute gen fetch u p (some jid)
      [PollResponse.status "esriJobExecuting", PollResponse.status "esriJobExecuting",
        PollResponse.error (some 498), PollResponse.status "esriJobSucceeded"]
      (some t1) =
    (PollOutcome.routes (fetch (some t2)),
      { polls := [(jid, some t1), (jid, some t1), (jid, some t1), (jid, some t2)],
        tokenRequests := [(u, p)] }) := by
  simp [calculate_commute, pollLoop, hgen]

/-- Concrete instantiation of the C2 polling scenario. -/
theorem c2_poll_auth_refresh_witness :
    calculate_commute (fun _ _ => some "T2") (fun _ => [7]) "u" "p" (some "J")
      [PollResponse.status "esriJobExecuting", PollResponse.status "esriJobExecuting",
        PollResponse.error (some 498), PollResponse.status "esriJobSucceeded"]
      (some "T1") =
    (PollOutcome.routes [7],
      { polls := [("J", some "T1"), ("J", some "T1"), ("J", some "T1"), ("J", some "T2")],
        tokenRequests := [("u", "p")] }) :=
  c2_poll_auth_refresh (fun _ _ => some "T2") (fun _ => [7]) "u" "p" "J" "T1" "T2" rfl

/-- Claim C10: when a status poll returns auth-expiry (code 498) and the
token provider itself fails (returns no token), the loop does not report a
failure at that step: it records the token request, continues polling with
the absent token value, and the next status query carries that absent
token. -/
theorem c10_token_refresh_failure_not_surfaced (gen : String → String → Option String)
    (fetch : Option String → List Int) (u p jid : String) (rest : List PollResponse)
    (token : Option String) (jobStatus : String) (log : PollLog)
    (hgen : gen u p = none)
    (hs : jobStatus = "esriJobSubmitted" ∨ jobStatus = "esriJobExecuting") :
    pollLoop gen fetch u p jid (PollResponse.error (some 498) :: rest) token jobStatus log =
      pollLoop gen fetch u p jid rest none jobStatus
        { polls := log.polls ++ [(jid, token)],
          tokenRequests := log.tokenRequests ++ [(u, p)] } := by
  rcases hs with hs | hs <;> subst hs <;> simp [pollLoop, hgen]

/-- Concrete instantiation of the C10 failed-token-refresh step. -/
theorem c10_token_refresh_failure_witness :
    pollLoop (fun _ _ => none) (fun _ => [7]) "u" "p" "J"
      [PollResponse.error (some 498)] (some "T") "esriJobExecuting"
      { polls := [], tokenRequests := [] } =
    pollLoop (fun _ _ => none) (fun _ => [7]) "u" "p" "J" [] none "esriJobExecuting"
      { polls := [("J", some "T")], tokenRequests := [("u", "p")] } := by
  have h := c10_token_refresh_failure_not_surfaced (fun _ _ => none) (fun _ => [7])
    "u" "p" "J" [] (some "T") "esriJobExecuting"
    { polls := [], tokenRequests := [] } rfl (Or.inr rfl)
  simpa using h

/-- Claim C4 counterexample: with a zero-score WORK result and its HOME
counterpart for employee 1, the employee is appended to the flagged list and
then also to the found list, so the found and flagged sets intersect. -/
theorem c4_counterexample_found_and_flagged :
    (1 : Int) ∈ (matchState [locZeroScore, locHome]).found ∧
    (1 : Int) ∈ (matchState [locZeroScore, locHome]).flagged := by decide

/-- Claim C5 counterexample: when the HOME-tagged member of a valid pair
precedes the WORK-tagged member in the input pool, the HOME member is
appended to origins and the WORK member to destinations. -/
theorem c5_counterexample_home_origin :
    (match_work_and_home [locHome, locWork]).1.map Location.addressType =
      [some HOME_ADDRESS_TYPE] ∧
    (match_work_and_home [locHome, locWork]).2.1.map Location.addressType =
      [some WORK_ADDRESS_TYPE] := by decide

/-- Claim C7 counterexample: a malformed record (missing address-type key)
whose readable identifier is 0 raises inside the loop, yet employee 0 is not
flagged because Python's truthiness check `if employee` is false at 0; the
batch still continues and the remaining pair is matched. -/
theorem c7_counterexample_zero_id_not_flagged :
    match_work_and_home [locMalformedZero, locWork, locHome] =
      ([locWork], [locHome], []) ∧
    (0 : Int) ∉ (match_work_and_home [locMalformedZero, locWork, locHome]).2.2 := by
  decide

/-- Claim C7 amended: an exception while processing one location never aborts
the fold; it leaves origins, destinations and found unchanged and appends the
employee to the flagged list exactly when the identifier was readable and
nonzero (Python truthiness). -/
theorem c7_amended_per_item_isolation (locations : List Location) (s : MatchState)
    (location : Location) (e : Int) (hid : location.resultID = some e)
    (hf : e ∉ s.found) (hfl : e ∉ s.flagged)
    (hex : tryProcess locations s e location = none) :
    (processLocation locations s location).origins = s.origins ∧
    (processLocation locations s location).destinations = s.destinations ∧
    (processLocation locations s location).found = s.found ∧
    (processLocation locations s location).flagged =
      (if e = 0 then s.flagged else s.flagged ++ [e]) := by
  unfold processLocation
  rw [hid]
  simp only [hf, hfl, or_self, if_false, hex]
  by_cases h0 : e = 0 <;> simp [h0]

/-- Concrete instantiation of the amended C7: a malformed record with
readable nonzero identifier 2 is flagged and nothing else changes. -/
theorem c7_amended_witness :
    (processLocation [locMalformedTwo] emptyMatchState locMalformedTwo).flagged = [2] := by
  have h := c7_amended_per_item_isolation [locMalformedTwo] emptyMatchState
    locMalformedTwo 2 rfl (by decide) (by decide) rfl
  simpa [emptyMatchState] using h.2.2.2

/-- Claim C8 counterexample: workers with the consecutive employee numbers 5
and 6 produce the synthetic id 6 twice, so the ids are not globally unique. -/
theorem c8_counterexample_consecutive_ids :
    allObjectIDs [worker5, worker6] = [5, 6, 6, 7] ∧
    ¬ (allObjectIDs [worker5, worker6]).Nodup := by decide

/-- The record batches of `read_worker_info` are the per-worker batches in
roster order. -/
theorem read_worker_info_eq_map (workers : List Worker) :
    read_worker_info workers = workers.map workerRecords := by
  unfold read_worker_info
  rw [foldl_append_singleton]
  simp

/-- The synthetic ids of a roster are each worker's number and its successor,
in roster order. -/
theorem allObjectIDs_eq_flatMap (workers : List Worker) :
    allObjectIDs workers =
      workers.flatMap (fun w => [w.employee, w.employee + 1]) := by
  unfold allObjectIDs
  rw [read_worker_info_eq_map]
  induction workers with
  | nil => simp
  | cons w ws ih => simp_all [workerRecords]

/-- Claim C8 amended: the two synthetic ids of each worker always differ by
exactly 1, and the ids are globally unique provided any two distinct roster
rows have employee numbers at least 2 apart. -/
theorem c8_amended_ids (workers : List Worker)
    (hspaced : workers.Pairwise (fun a b => 2 ≤ (a.employee - b.employee).natAbs)) :
    (∀ w ∈ workers, (workerRecords w).map GeocodeRecord.objectID =
      [w.employee, w.employee + 1]) ∧
    (allObjectIDs workers).Nodup := by
  refine ⟨fun w _ => by simp [workerRecords], ?_⟩
  rw [allObjectIDs_eq_flatMap]
  induction workers with
  | nil => simp
  | cons w ws ih =>
    rcases List.pairwise_cons.mp hspaced with ⟨hw, hws⟩
    simp only [List.flatMap_cons]
    rw [List.nodup_append]
    refine ⟨by simp, ih hws, ?_⟩
    intro a ha hb
    rcases List.mem_flatMap.mp hb with ⟨b, hbmem, hab⟩
    have h2 := hw b hbmem
    simp only [List.mem_cons, List.mem_singleton, List.not_mem_nil] at ha hab
    rcases ha with ha | ha | ha <;> try rcases hab with hab | hab | hab
    all_goals try omega
    all_goals simp_all

/-- Concrete instantiation of the amended C8 for workers 5 and 8. -/
theorem c8_amended_witness :
    (allObjectIDs [worker5, worker8]).Nodup ∧
    (workerRecords worker5).map GeocodeRecord.objectID = [5, 6] :=
  ⟨(c8_amended_ids [worker5, worker8] (by decide)).2,
    (c8_amended_ids [worker5, worker8] (by decide)).1 worker5 (by decide)⟩

theorem findMatchingLocation_ok_some (employee : Int) (address ty : String) :
    ∀ (locations : List Location) (m : Location),
      findMatchingLocation employee address ty locations = Except.ok (some m) →
      m.resultID = some employee ∧
      (∃ b, m.address = some b ∧ b ≠ address) ∧
      (∃ u, m.addressType = some u ∧ u ≠ ty) := by
  intro locations
  induction locations with
  | nil => intro m h; simp [findMatchingLocation] at h
  | cons l ls ih =>
    intro m h
    unfold findMatchingLocation at h
    split at h
    · cases h
    · rename_i rid heq
      split at h
      · rename_i h1
        split at h
        · cases h
        · rename_i a ha
          split at h
          · exact ih m h
          · rename_i h2
            split at h
            · cases h
            · rename_i t ht
              split at h
              · exact ih m h
              · rename_i h3
                injection h with h
                injection h with h
                subst h
                exact ⟨h1 ▸ heq, ⟨a, ha, h2⟩, ⟨t, ht, h3⟩⟩
      · exact ih m h

theorem tryProcess_spec (locations : List Location) (s : MatchState) (e : Int)
    (location : Location) (s' : MatchState) (hid : location.resultID = some e)
    (h : tryProcess locations s e location = some s') :
    (s'.origins = s.origins ∧ s'.destinations = s.destinations ∧
      (s'.flagged = s.flagged ∨ s'.flagged = s.flagged ++ [e]) ∧
      (s'.found = s.found ∨ s'.found = s.found ++ [e])) ∨
    (∃ m, GoodPair location m ∧ m.resultID = some e ∧
      s'.origins = s.origins ++ [location] ∧
      s'.destinations = s.destinations ++ [m] ∧
      s'.found = s.found ++ [e] ∧ s'.flagged = s.flagged) := by
  unfold tryProcess at h
  split at h
  · cases h
  · rename_i ty ht
    split at h
    · cases h
    · rename_i addr ha
      split at h
      · cases h
      · injection h with h
        subst h
        left
        refine ⟨rfl, rfl, ?_, Or.inl rfl⟩
        by_cases hm : e ∈ s.flagged <;> simp [hm]
      · rename_i m hfm
        split at h
        · cases h
        · rename_i x hsc
          split at h
          · injection h with h
            subst h
            left
            refine ⟨rfl, rfl, ?_, Or.inr rfl⟩
            by_cases hm : e ∈ s.flagged <;> simp [hm]
          · rename_i hx
            split at h
            · cases h
            · rename_i y hmc
              split at h
              · injection h with h
                subst h
                left
                refine ⟨rfl, rfl, ?_, Or.inr rfl⟩
                by_cases hm : e ∈ s.flagged <;> simp [hm]
              · rename_i hy
                injection h with h
                subst h
                obtain ⟨hm1, ⟨b, hb, hbne⟩, ⟨u, hu, hune⟩⟩ :=
                  findMatchingLocation_ok_some e addr ty locations m hfm
                right
                exact ⟨m, ⟨⟨e, hid, hm1⟩, ⟨addr, b, ha, hb, fun hab => hbne hab.symm⟩,
                  ⟨ty, u, ht, hu, fun htu => hune htu.symm⟩, ⟨x, hsc, hx⟩, ⟨y, hmc, hy⟩⟩,
                  hm1, rfl, rfl, rfl, rfl⟩

theorem matchInv_empty : MatchInv emptyMatchState := by
  constructor <;> simp [emptyMatchState]

theorem matchInv_step (locations : List Location) (s : MatchState) (location : Location)
    (hinv : MatchInv s) : MatchInv (processLocation locations s location) := by
  unfold processLocation
  cases hid : location.resultID with
  | none => exact hinv
  | some e =>
    show MatchInv
      (if e ∈ s.found ∨ e ∈ s.flagged then s
       else
         match tryProcess locations s e location with
         | some s2 => s2
         | none =>
           if e = 0 then s
           else { s with flagged := if e ∈ s.flagged then s.flagged else s.flagged ++ [e] })
    by_cases hmem : e ∈ s.found ∨ e ∈ s.flagged
    · rw [if_pos hmem]; exact hinv
    · rw [if_neg hmem]
      push_neg at hmem
      obtain ⟨hf, hfl⟩ := hmem
      cases htp : tryProcess locations s e location with
      | none =>
        show MatchInv
          (if e = 0 then s
           else { s with flagged := if e ∈ s.flagged then s.flagged else s.flagged ++ [e] })
        by_cases h0 : e = 0
        · rw [if_pos h0]; exact hinv
        · rw [if_neg h0, if_neg hfl]
          constructor
          · exact hinv.len_eq
          · exact hinv.ids_eq
          · exact hinv.pairs_good
          · exact hinv.origins_found
          · intro o ho e' he'
            have h1 := hinv.origins_not_flagged o ho e' he'
            have h2 := hinv.origins_found o ho e' he'
            simp only [List.mem_append, List.mem_singleton]
            rintro (hc | hc)
            · exact h1 hc
            · exact hf (hc ▸ h2)
          · exact hinv.ids_nodup
      | some s2 =>
        show MatchInv s2
        rcases tryProcess_spec locations s e location s2 hid htp with
          ⟨ho, hd, hflag, hfound⟩ | ⟨m, hgood, hmid, ho, hd, hfound, hflag⟩
        · constructor
          · rw [ho, hd]; exact hinv.len_eq
          · rw [ho, hd]; exact hinv.ids_eq
          · rw [ho, hd]; exact hinv.pairs_good
          · intro o hmem e' he'
            rw [ho] at hmem
            have h2 := hinv.origins_found o hmem e' he'
            rcases hfound with hh | hh <;> rw [hh] <;> simp [h2]
          · intro o hmem e' he'
            rw [ho] at hmem
            have h1 := hinv.origins_not_flagged o hmem e' he'
            have h2 := hinv.origins_found o hmem e' he'
            rcases hflag with hh | hh <;> rw [hh]
            · exact h1
            · simp only [List.mem_append, List.mem_singleton]
              rintro (hc | hc)
              · exact h1 hc
              · exact hf (hc ▸ h2)
          · rw [ho]; exact hinv.ids_nodup
        · constructor
          · rw [ho, hd]; simp [hinv.len_eq]
          · rw [ho, hd]; simp [hinv.ids_eq, hid, hmid]
          · intro p hp
            rw [ho, hd, List.zip_append hinv.len_eq] at hp
            rcases List.mem_append.mp hp with hp | hp
            · exact hinv.pairs_good p hp
            · simp only [List.zip_cons_cons, List.zip_nil_left, List.mem_singleton] at hp
              subst hp
              exact hgood
          · intro o hmem e' he'
            rw [ho] at hmem
            rw [hfound]
            rcases List.mem_append.mp hmem with hmem | hmem
            · simp [hinv.origins_found o hmem e' he']
            · simp only [List.mem_singleton] at hmem
              subst hmem
              rw [hid] at he'
              injection he' with he'
              simp [he']
          · intro o hmem e' he'
            rw [ho] at hmem
            rw [hflag]
            rcases List.mem_append.mp hmem with hmem | hmem
            · exact hinv.origins_not_flagged o hmem e' he'
            · simp only [List.mem_singleton] at hmem
              subst hmem
              rw [hid] at he'
              injection he' with he'
              subst he'
              exact hfl
          · rw [ho, List.map_append]
            rw [List.nodup_append]
            refine ⟨hinv.ids_nodup, by simp, ?_⟩
            intro a hamem hasing
            simp only [List.map_cons, List.map_nil, List.mem_singleton] at hasing
            subst hasing
            rcases List.mem_map.mp hamem with ⟨o, ho2, hoid⟩
            have := hinv.origins_found o ho2 e (by rw [hoid, hid])
            exact hf this

theorem matchInv_foldl (locations : List Location) :
    ∀ (l : List Location) (s : MatchState), MatchInv s →
      MatchInv (List.foldl (processLocation locations) s l) := by
  intro l
  induction l with
  | nil => intro s hs; exact hs
  | cons x xs ih =>
    intro s hs
    rw [List.foldl_cons]
    exact ih _ (matchInv_step locations s x hs)

theorem matchInv_matchState (locations : List Location) :
    MatchInv (matchState locations) :=
  matchInv_foldl locations locations _ matchInv_empty

/-- Claim C1: origins and destinations have equal length and the i-th entries
carry the same employee identifier (equal `ResultID` columns). -/
theorem c1_origins_destinations_aligned (locations : List Location) :
    (match_work_and_home locations).1.length =
      (match_work_and_home locations).2.1.length ∧
    (match_work_and_home locations).1.map Location.resultID =
      (match_work_and_home locations).2.1.map Location.resultID :=
  ⟨(matchInv_matchState locations).len_eq, (matchInv_matchState locations).ids_eq⟩

/-- Claim C4 amended: no employee id carried by a matched origin ever appears
in the flagged list. -/
theorem c4_amended_matched_not_flagged (locations : List Location) (o : Location)
    (e : Int) (ho : o ∈ (match_work_and_home locations).1)
    (he : o.resultID = some e) : e ∉ (match_work_and_home locations).2.2 :=
  (matchInv_matchState locations).origins_not_flagged o ho e he

/-- Concrete instantiation of the amended C4 claim. -/
theorem c4_amended_witness :
    (1 : Int) ∉ (match_work_and_home [locWork, locHome]).2.2 :=
  c4_amended_matched_not_flagged [locWork, locHome] locWork 1 (by decide) rfl

/-- Claim C5 amended: each origin/destination pair carries two present but
different address-type tags (the origin is simply the pair member scanned
first, not necessarily the WORK one). -/
theorem c5_amended_opposite_tags (locations : List Location) (p : Location × Location)
    (hp : p ∈ (match_work_and_home locations).1.zip (match_work_and_home locations).2.1) :
    (∃ t u, p.1.addressType = some t ∧ p.2.addressType = some u ∧ t ≠ u) ∧
    p.1.addressType ≠ p.2.addressType := by
  obtain ⟨t, u, ht, hu, hne⟩ := ((matchInv_matchState locations).pairs_good p hp).2.2.1
  refine ⟨⟨t, u, ht, hu, hne⟩, ?_⟩
  rw [ht, hu]
  intro hc
  exact hne (Option.some.inj hc)

/-- Concrete instantiation of the amended C5 claim. -/
theorem c5_amended_witness :
    ((locHome, locWork) : Location × Location).1.addressType ≠
      (locHome, locWork).2.addressType :=
  (c5_amended_opposite_tags [locHome, locWork] (locHome, locWork) (by decide)).2

theorem processLocation_some (locations : List Location) (s : MatchState)
    (location : Location) (e : Int) (hid : location.resultID = some e) :
    processLocation locations s location =
      (if e ∈ s.found ∨ e ∈ s.flagged then s
       else
         match tryProcess locations s e location with
         | some s2 => s2
         | none =>
           if e = 0 then s
           else { s with
             flagged := if e ∈ s.flagged then s.flagged else s.flagged ++ [e] }) := by
  unfold processLocation
  rw [hid]

theorem processLocation_skip (full : List Location) (s : MatchState) (d : Location)
    (e : Int) (he : d.resultID = some e) (hmem : e ∈ s.found ∨ e ∈ s.flagged) :
    processLocation full s d = s := by
  rw [processLocation_some full s d e he, if_pos hmem]

theorem foldl_processLocation_skip (full : List Location) :
    ∀ (ds : List Location) (s : MatchState),
      (∀ d ∈ ds, ∃ e, d.resultID = some e ∧ (e ∈ s.found ∨ e ∈ s.flagged)) →
      List.foldl (processLocation full) s ds = s := by
  intro ds
  induction ds with
  | nil => intro s _; rfl
  | cons d ds ih =>
    intro s h
    obtain ⟨e, he, hmem⟩ := h d (List.mem_cons_self d ds)
    rw [List.foldl_cons, processLocation_skip full s d e he hmem]
    exact ih s (fun d2 hd2 => h d2 (List.mem_cons_of_mem d hd2))

theorem processLocation_append_case (full : List Location) (s : MatchState)
    (location m : Location) (e : Int) (ty a : String) (x y : Int)
    (hid : location.resultID = some e) (hf : e ∉ s.found) (hfl : e ∉ s.flagged)
    (hty : location.addressType = some ty) (ha : location.address = some a)
    (hfm : findMatchingLocation e a ty full = Except.ok (some m))
    (hx : location.score = some x) (hxne : x ≠ 0)
    (hy : m.score = some y) (hyne : y ≠ 0) :
    processLocation full s location =
      { found := s.found ++ [e], origins := s.origins ++ [location],
        destinations := s.destinations ++ [m], flagged := s.flagged } := by
  rw [processLocation_some full s location e hid, if_neg (by simp [hf, hfl])]
  have htp : tryProcess full s e location =
      some { found := s.found ++ [e], origins := s.origins ++ [location],
             destinations := s.destinations ++ [m], flagged := s.flagged } := by
    simp [tryProcess, hty, ha, hfm, hx, hxne, hy, hyne]
  rw [htp]

theorem findMatchingLocation_skip_all (e : Int) (a t : String) :
    ∀ xs : List Location,
      (∀ l ∈ xs, ∃ e', l.resultID = some e' ∧ (e' ≠ e ∨ l.address = some a)) →
      findMatchingLocation e a t xs = Except.ok none := by
  intro xs
  induction xs with
  | nil => intro _; rfl
  | cons l ls ih =>
    intro h
    obtain ⟨e', he', hcase⟩ := h l (List.mem_cons_self l ls)
    have hrest := ih (fun l2 hl2 => h l2 (List.mem_cons_of_mem l hl2))
    by_cases h1 : e' = e
    · rcases hcase with hne | haddr
      · exact absurd h1 hne
      · simp only [findMatchingLocation, he', haddr]
        rw [if_pos h1]
        simp only [if_true]
        exact hrest
    · simp only [findMatchingLocation, he']
      rw [if_neg h1]
      exact hrest

theorem findMatchingLocation_hit (e : Int) (a t : String) (l : Location)
    (ls : List Location) (h1 : l.resultID = some e)
    (h2 : ∃ b, l.address = some b ∧ b ≠ a)
    (h3 : ∃ u, l.addressType = some u ∧ u ≠ t) :
    findMatchingLocation e a t (l :: ls) = Except.ok (some l) := by
  obtain ⟨b, hb, hbne⟩ := h2
  obtain ⟨u, hu, hune⟩ := h3
  simp only [findMatchingLocation, h1, hb, hu, if_true]
  rw [if_neg hbne, if_neg hune]

theorem findMatchingLocation_append (e : Int) (a t : String) :
    ∀ xs ys : List Location, findMatchingLocation e a t xs = Except.ok none →
      findMatchingLocation e a t (xs ++ ys) = findMatchingLocation e a t ys := by
  intro xs
  induction xs with
  | nil => intro ys _; rfl
  | cons l ls ih =>
    intro ys h
    rw [List.cons_append]
    unfold findMatchingLocation at h
    split at h
    · cases h
    · rename_i rid heq
      split at h
      · rename_i h1
        split at h
        · cases h
        · rename_i b hb
          split at h
          · rename_i h2
            simp only [findMatchingLocation, heq, hb]
            rw [if_pos h1, if_pos h2]
            exact ih ys h
          · rename_i h2
            split at h
            · cases h
            · rename_i u hu
              split at h
              · rename_i h3
                simp only [findMatchingLocation, heq, hb, hu]
                rw [if_pos h1, if_neg h2, if_pos h3]
                exact ih ys h
              · cases h
      · rename_i h1
        simp only [findMatchingLocation, heq]
        rw [if_neg h1]
        exact ih ys h

theorem secondRun_fold (ps : List (Location × Location))
    (hgood : ∀ p ∈ ps, GoodPair p.1 p.2)
    (hnodup : (ps.map (fun q => q.1.resultID)).Nodup) :
    ∀ (rest done : List (Location × Location)), ps = done ++ rest →
      List.foldl (processLocation (ps.map Prod.fst ++ ps.map Prod.snd))
        { found := done.filterMap (fun q => q.1.resultID),
          origins := done.map Prod.fst,
          destinations := done.map Prod.snd, flagged := [] }
        (rest.map Prod.fst ++ ps.map Prod.snd) =
      { found := ps.filterMap (fun q => q.1.resultID),
        origins := ps.map Prod.fst, destinations := ps.map Prod.snd,
        flagged := [] } := by
  intro rest
  induction rest with
  | nil =>
    intro done hps
    rw [List.append_nil] at hps
    subst hps
    simp only [List.map_nil, List.nil_append]
    apply foldl_processLocation_skip
    intro d hd
    obtain ⟨p, hp, rfl⟩ := List.mem_map.mp hd
    obtain ⟨e, he1, he2⟩ := (hgood p hp).1
    exact ⟨e, he2, Or.inl (List.mem_filterMap.mpr ⟨p, hp, he1⟩)⟩
  | cons p rest' ih =>
    intro done hps
    have hp_in : p ∈ ps := by
      rw [hps]; exact List.mem_append_right done (List.mem_cons_self p rest')
    obtain ⟨⟨e, he1, he2⟩, ⟨a, b, ha, hb, hab⟩, ⟨t, u, ht, hu, htu⟩,
      ⟨x, hx, hxne⟩, ⟨y, hy, hyne⟩⟩ := hgood p hp_in
    have hid_decomp : ps.map (fun q => q.1.resultID) =
        done.map (fun q => q.1.resultID) ++
          p.1.resultID :: rest'.map (fun q => q.1.resultID) := by
      rw [hps]; simp
    have hnodup2 := hid_decomp ▸ hnodup
    obtain ⟨hnd1, hnd2, hdisj⟩ := List.nodup_append.mp hnodup2
    have he_not_done : ∀ q ∈ done, ∀ e', q.1.resultID = some e' → e' ≠ e := by
      intro q hq e' hq1 hee
      subst hee
      refine hdisj (List.mem_map.mpr ⟨q, hq, hq1⟩) ?_
      rw [he1]
      exact hq1 ▸ List.mem_cons_self _ _
    have he_found : e ∉ done.filterMap (fun q => q.1.resultID) := by
      intro hc
      obtain ⟨q, hq, hq1⟩ := List.mem_filterMap.mp hc
      exact he_not_done q hq e hq1 rfl
    have he_not_rest : ∀ q ∈ rest', ∀ e', q.1.resultID = some e' → e' ≠ e := by
      intro q hq e' hq1 hee
      subst hee
      have hhd := (List.nodup_cons.mp hnd2).1
      rw [he1] at hhd
      exact hhd (List.mem_map.mpr ⟨q, hq, hq1⟩)
    have hfull : ps.map Prod.fst ++ ps.map Prod.snd =
        (done.map Prod.fst ++ p.1 :: rest'.map Prod.fst ++ done.map Prod.snd) ++
          (p.2 :: rest'.map Prod.snd) := by
      rw [hps]; simp [List.append_assoc]
    have hskipA : findMatchingLocation e a t
        (done.map Prod.fst ++ p.1 :: rest'.map Prod.fst ++ done.map Prod.snd) =
        Except.ok none := by
      apply findMatchingLocation_skip_all
      intro l hl
      rcases List.mem_append.mp hl with hl | hl
      · rcases List.mem_append.mp hl with hl | hl
        · obtain ⟨q, hq, rfl⟩ := List.mem_map.mp hl
          obtain ⟨e', hq1, _⟩ :=
            (hgood q (by rw [hps]; exact List.mem_append_left _ hq)).1
          exact ⟨e', hq1, Or.inl (he_not_done q hq e' hq1)⟩
        · rcases List.mem_cons.mp hl with rfl | hl
          · exact ⟨e, he1, Or.inr ha⟩
          · obtain ⟨q, hq, rfl⟩ := List.mem_map.mp hl
            obtain ⟨e', hq1, _⟩ := (hgood q (by
              rw [hps]
              exact List.mem_append_right _ (List.mem_cons_of_mem _ hq))).1
            exact ⟨e', hq1, Or.inl (he_not_rest q hq e' hq1)⟩
      · obtain ⟨q, hq, rfl⟩ := List.mem_map.mp hl
        obtain ⟨e', hq1, hq2⟩ :=
          (hgood q (by rw [hps]; exact List.mem_append_left _ hq)).1
        exact ⟨e', hq2, Or.inl (he_not_done q hq e' hq1)⟩
    have hfm : findMatchingLocation e a t (ps.map Prod.fst ++ ps.map Prod.snd) =
        Except.ok (some p.2) := by
      rw [hfull, findMatchingLocation_append e a t _ _ hskipA]
      exact findMatchingLocation_hit e a t p.2 (rest'.map Prod.snd) he2
        ⟨b, hb, Ne.symm hab⟩ ⟨u, hu, Ne.symm htu⟩
    have hstep : processLocation (ps.map Prod.fst ++ ps.map Prod.snd)
        { found := done.filterMap (fun q => q.1.resultID),
          origins := done.map Prod.fst,
          destinations := done.map Prod.snd, flagged := [] } p.1 =
        { found := done.filterMap (fun q => q.1.resultID) ++ [e],
          origins := done.map Prod.fst ++ [p.1],
          destinations := done.map Prod.snd ++ [p.2], flagged := [] } :=
      processLocation_append_case _ _ p.1 p.2 e t a x y he1 he_found (by simp)
        ht ha hfm hx hxne hy hyne
    have hlist : (p :: rest').map Prod.fst ++ ps.map Prod.snd =
        p.1 :: (rest'.map Prod.fst ++ ps.map Prod.snd) := by simp
    rw [hlist, List.foldl_cons, hstep]
    have hfound_eq : done.filterMap (fun q => q.1.resultID) ++ [e] =
        (done ++ [p]).filterMap (fun q => q.1.resultID) := by
      rw [List.filterMap_append]; simp [he1]
    have horig_eq : done.map Prod.fst ++ [p.1] = (done ++ [p]).map Prod.fst := by simp
    have hdest_eq : done.map Prod.snd ++ [p.2] = (done ++ [p]).map Prod.snd := by simp
    rw [hfound_eq, horig_eq, hdest_eq]
    exact ih (done ++ [p]) (by rw [hps]; simp)

/-- Claim C9: re-running `match_work_and_home` on the concatenation of its
own origins and destinations outputs reproduces those outputs exactly and
flags no employee. -/
theorem c9_idempotent_on_own_output (locations : List Location) :
    match_work_and_home
        ((match_work_and_home locations).1 ++ (match_work_and_home locations).2.1) =
      ((match_work_and_home locations).1, (match_work_and_home locations).2.1,
        ([] : List Int)) := by
  have hinv := matchInv_matchState locations
  have hlen : (matchState locations).origins.length =
      (matchState locations).destinations.length := hinv.len_eq
  have ho : (((matchState locations).origins.zip
      (matchState locations).destinations).map Prod.fst) =
      (matchState locations).origins :=
    List.map_fst_zip _ _ (le_of_eq hlen)
  have hd : (((matchState locations).origins.zip
      (matchState locations).destinations).map Prod.snd) =
      (matchState locations).destinations :=
    List.map_snd_zip _ _ (le_of_eq hlen.symm)
  have hnodup : ((((matchState locations).origins.zip
      (matchState locations).destinations)).map (fun q => q.1.resultID)).Nodup := by
    have hmm : (((matchState locations).origins.zip
        (matchState locations).destinations)).map (fun q => q.1.resultID) =
        (matchState locations).origins.map Location.resultID := by
      conv_rhs => rw [← ho]
      rw [List.map_map]
      rfl
    rw [hmm]
    exact hinv.ids_nodup
  have h := secondRun_fold
    ((matchState locations).origins.zip (matchState locations).destinations)
    hinv.pairs_good hnodup
    ((matchState locations).origins.zip (matchState locations).destinations) []
    (by simp)
  simp only [List.filterMap_nil, List.map_nil] at h
  rw [ho, hd] at h
  have hms : matchState
      ((matchState locations).origins ++ (matchState locations).destinations) =
      { found := (((matchState locations).origins.zip
          (matchState locations).destinations)).filterMap (fun q => q.1.resultID),
        origins := (matchState locations).origins,
        destinations := (matchState locations).destinations,
        flagged := [] } := h
  unfold match_work_and_home
  rw [hms]

end Telework
